import Mathlib

/-!
Shallow embedding of the crowd-navigation simulator (src/src/main.py,
src/src/environment/pedestrian.py, src/src/environment/robot.py,
src/src/environment/scenarios.py, src/src/agent/behaviors.py).

Python floats are modelled by real numbers; the integer rectangle
geometry of pygame.Rect is modelled over ℤ; scenario coordinates that
the code only ever adds, multiplies and compares (never square-roots)
are modelled over ℚ so that concrete scenarios evaluate by `decide`.

The module constants WIDTH and HEIGHT come from constants.py, which is
not among the analyzed source files; they are threaded through as
explicit parameters `W H : ℤ` instead of being fixed numerals.
-/

namespace CrowdNav

noncomputable section

/-- pygame.Rect: an axis-aligned integer rectangle `(x, y, w, h)`;
`left = x`, `top = y`, `right = x + w`, `bottom = y + h`. -/
structure Rect where
  x : ℤ
  y : ℤ
  w : ℤ
  h : ℤ
  deriving DecidableEq, Repr

/-- pygame.Rect.colliderect: true when the interiors overlap (all four
comparisons strict, so rectangles that merely share an edge do not
collide). -/
def Rect.colliderect (a b : Rect) : Bool :=
  a.x < b.x + b.w && b.x < a.x + a.w && a.y < b.y + b.h && b.y < a.y + a.h

/-- pygame.Rect.inflate(dx, dy): grow in place around the center. -/
def Rect.inflate (r : Rect) (dx dy : ℤ) : Rect :=
  ⟨r.x - dx / 2, r.y - dy / 2, r.w + dx, r.h + dy⟩

/-- Model of numpy.random.Generator: a sequential stream of entropy,
one `(ℕ, ℚ)` pair per draw (the natural part feeds integer draws, the
rational part — kept in `[0, 1)` by `Rng.WF` — feeds uniform draws),
plus the index of the next draw.  Each call to the generator consumes
exactly one stream position, so the consumption order is observable. -/
structure Rng where
  stream : ℕ → ℕ × ℚ
  idx : ℕ

/-- Advance the generator by one draw. -/
def Rng.next (r : Rng) : (ℕ × ℚ) × Rng :=
  (r.stream r.idx, ⟨r.stream, r.idx + 1⟩)

/-- The unit-interval draws really lie in `[0, 1)` (numpy guarantees
this for the fractions behind `uniform`). -/
def Rng.WF (r : Rng) : Prop :=
  ∀ n, 0 ≤ (r.stream n).2 ∧ (r.stream n).2 < 1

/-- numpy `rng.integers(lo, hi)`: a draw from `[lo, hi)`.  (numpy raises
for `lo ≥ hi`; the code under analysis only calls it with `lo < hi`,
where this model is in range — see `rngIntegers_mem`.) -/
def rngIntegers (lo hi : ℤ) (r : Rng) : ℤ × Rng :=
  let (e, r') := r.next
  (lo + (e.1 : ℤ) % (hi - lo), r')

/-- numpy `rng.uniform(lo, hi)`: `lo + t * (hi - lo)` for a fraction
`t ∈ [0, 1)` — this is also numpy's behaviour when `hi < lo` (it does
not reorder the bounds). -/
def rngUniform (lo hi : ℚ) (r : Rng) : ℚ × Rng :=
  let (e, r') := r.next
  (lo + e.2 * (hi - lo), r')

/-- Model of Python's process-global `random` module as used by
`behaviors.get_random_move`: it is *not* seeded by `init_rng`, so its
stream is independent entropy, not derived from the simulation seed. -/
structure PyRandom where
  stream : ℕ → ℕ
  idx : ℕ

/-- Python `random.choice(l)`: pick one element; the draw is reduced
modulo the length to stay in range. -/
def pyChoice (l : List ℤ) (r : PyRandom) : ℤ × PyRandom :=
  (l.getD (r.stream r.idx % l.length) 0, ⟨r.stream, r.idx + 1⟩)

/-- math.hypot / pygame.Vector2.length. -/
def hypot (a b : ℝ) : ℝ := Real.sqrt (a ^ 2 + b ^ 2)

/-- Python `int(x)`: truncation toward zero. -/
def pyInt (x : ℝ) : ℤ := if 0 ≤ x then ⌊x⌋ else ⌈x⌉

/-- environment/pedestrian.py: the Pedestrian dataclass with its
default tunable parameters. -/
structure Ped where
  x : ℝ
  y : ℝ
  vx : ℝ
  vy : ℝ
  goal_x : ℝ
  goal_y : ℝ
  radius : ℤ := 10
  desired_speed : ℝ := 1.5
  relaxation_time : ℝ := 30.0
  max_speed : ℝ := 3.0
  ped_A : ℝ := 8.0
  ped_B : ℝ := 8.0
  wall_A : ℝ := 0.0
  wall_B : ℝ := 5.0

instance : Inhabited Ped := ⟨{ x := 0, y := 0, vx := 0, vy := 0, goal_x := 0, goal_y := 0 }⟩

/-- Pedestrian._self_driving_force. -/
def selfDrivingForce (p : Ped) : ℝ × ℝ :=
  let dx := p.goal_x - p.x
  let dy := p.goal_y - p.y
  let dist := hypot dx dy
  if dist < 1e-6 then (0, 0)
  else
    let ex := dx / dist
    let ey := dy / dist
    ((p.desired_speed * ex - p.vx) / p.relaxation_time,
     (p.desired_speed * ey - p.vy) / p.relaxation_time)

/-- Pedestrian._pedestrian_repulsion.  The Python loop iterates the
whole pedestrian list and skips `other is self` by object identity;
callers of this model pass the list with `self` already removed, which
is the same set of interaction partners. -/
def pedRepulsion (H : ℤ) (p : Ped) (others : List Ped) : ℝ × ℝ :=
  others.foldl
    (fun acc other =>
      if (H : ℝ) + (other.radius : ℝ) < other.y then acc
      else
        let dx := p.x - other.x
        let dy := p.y - other.y
        let dist0 := hypot dx dy
        let dist := if dist0 < 1e-6 then 1e-6 else dist0
        let nx := dx / dist
        let ny := dy / dist
        let rij := ((p.radius + other.radius : ℤ) : ℝ)
        let magnitude := p.ped_A * Real.exp ((rij - dist) / p.ped_B)
        (acc.1 + magnitude * nx, acc.2 + magnitude * ny))
    (0, 0)

/-- Pedestrian._wall_repulsion: only the left and right borders, with
the distance floored at 1e-6 and outward normals (1,0) and (-1,0). -/
def wallRepulsion (W : ℤ) (p : Ped) : ℝ × ℝ :=
  let d1 := if p.x < 1e-6 then 1e-6 else p.x
  let m1 := p.wall_A * Real.exp (((p.radius : ℝ) - d1) / p.wall_B)
  let d2 := if (W : ℝ) - p.x < 1e-6 then 1e-6 else (W : ℝ) - p.x
  let m2 := p.wall_A * Real.exp (((p.radius : ℝ) - d2) / p.wall_B)
  (m1 * 1.0 + m2 * (-1.0), m1 * 0.0 + m2 * 0.0)

/-- Pedestrian._would_collide: hitbox `Rect(int(x-r), int(y-r), 2r, 2r)`
against every obstacle. -/
def wouldCollide (p : Ped) (x y : ℝ) (obstacles : List Rect) : Bool :=
  let hitbox : Rect :=
    ⟨pyInt (x - (p.radius : ℝ)), pyInt (y - (p.radius : ℝ)), p.radius * 2, p.radius * 2⟩
  obstacles.any fun obstacle => hitbox.colliderect obstacle

/-- Lines 88–98 of Pedestrian.update: accumulate the three forces into
the velocity, then rescale it to `max_speed` when its magnitude
exceeds `max_speed`. -/
def clampedVelocity (W H : ℤ) (p : Ped) (others : List Ped) : ℝ × ℝ :=
  let f1 := selfDrivingForce p
  let f2 := pedRepulsion H p others
  let f3 := wallRepulsion W p
  let vx := p.vx + (f1.1 + f2.1 + f3.1)
  let vy := p.vy + (f1.2 + f2.2 + f3.2)
  let speed := hypot vx vy
  if speed > p.max_speed then (vx / speed * p.max_speed, vy / speed * p.max_speed)
  else (vx, vy)

/-- Pedestrian.update.  `rng` is always supplied by the main loop, so
the `rng is None` branch of the source (which merely skips the bounce
perturbation) is not modelled.  Returns the updated pedestrian and the
advanced generator. -/
def Ped.update (W H : ℤ) (p : Ped) (others : List Ped) (obstacles : List Rect)
    (rng : Rng) : Ped × Rng :=
  let v := clampedVelocity W H p others
  let old_x := p.x
  let old_y := p.y
  let proposed_x := p.x + v.1
  let proposed_y := p.y + v.2
  let res : (ℝ × ℝ) × (ℝ × ℝ) × Rng :=
    if !obstacles.isEmpty && wouldCollide p proposed_x proposed_y obstacles then
      -- Try axis-separated movement first to simulate sliding around obstacles.
      if !(wouldCollide p proposed_x old_y obstacles) then
        ((proposed_x, old_y), v, rng)
      else if !(wouldCollide p old_x proposed_y obstacles) then
        ((old_x, proposed_y), v, rng)
      else
        -- If blocked in both directions, back off and slightly perturb heading.
        let (u1, rng1) := rngUniform (-0.2) 0.2 rng
        let (u2, rng2) := rngUniform (-0.2) 0.2 rng1
        let bvx := v.1 * (-0.4) + (u1 : ℝ)
        let bvy := v.2 * (-0.4) + (u2 : ℝ)
        ((old_x + bvx, old_y + bvy), (bvx, bvy), rng2)
    else
      ((proposed_x, proposed_y), v, rng)
  (⟨max (p.radius : ℝ) (min ((W : ℝ) - (p.radius : ℝ)) res.1.1),
    max (p.radius : ℝ) (min ((H : ℝ) - (p.radius : ℝ)) res.1.2),
    res.2.1.1, res.2.1.2, p.goal_x, p.goal_y, p.radius, p.desired_speed,
    p.relaxation_time, p.max_speed, p.ped_A, p.ped_B, p.wall_A, p.wall_B⟩,
   res.2.2)

/-- Pedestrian.has_reached_goal with the default threshold 15.0. -/
def hasReachedGoal (p : Ped) : Prop :=
  hypot (p.goal_x - p.x) (p.goal_y - p.y) < 15.0

/-- environment/robot.py: the Robot dataclass. -/
structure Robot where
  x : ℝ := 80.0
  y : ℝ := 80.0
  speed : ℝ := 3.0
  radius : ℤ := 12

/-- Robot._collides_any. -/
def collidesAny (r : Robot) (obstacles : List Rect) : Bool :=
  let hitbox : Rect :=
    ⟨pyInt (r.x - (r.radius : ℝ)), pyInt (r.y - (r.radius : ℝ)), r.radius * 2, r.radius * 2⟩
  obstacles.any fun obstacle => hitbox.colliderect obstacle

/-- Robot.move_with_obstacles: resolve x movement first, then y
movement, reverting an axis whose clamped move collides. -/
def Robot.moveWithObstacles (W H : ℤ) (r : Robot) (delta : ℝ × ℝ)
    (obstacles : List Rect) : Robot :=
  let old_x := r.x
  let old_y := r.y
  let x1 := max (r.radius : ℝ) (min ((W : ℝ) - (r.radius : ℝ)) (r.x + delta.1))
  let r1 : Robot := ⟨x1, r.y, r.speed, r.radius⟩
  let r2 : Robot := if collidesAny r1 obstacles then ⟨old_x, r.y, r.speed, r.radius⟩ else r1
  let y1 := max (r.radius : ℝ) (min ((H : ℝ) - (r.radius : ℝ)) (r2.y + delta.2))
  let r3 : Robot := ⟨r2.x, y1, r.speed, r.radius⟩
  if collidesAny r3 obstacles then ⟨r2.x, old_y, r.speed, r.radius⟩ else r3

/-- main.py constants. -/
def CLOSE_RADIUS : ℝ := 48
def NEAR_PENALTY : ℝ := 0.1
def GOAL_RADIUS : ℝ := 20
def OVERLAP_PENALTY_LOW : ℝ := 0.5
def OVERLAP_PENALTY_MID : ℝ := 1.0
def OVERLAP_PENALTY_HIGH : ℝ := 1.5

/-- The body of compute_penalty's loop: the amount one pedestrian adds
to the frame penalty. -/
def pedPenalty (robot : Robot) (ped : Ped) : ℝ :=
  let distance := hypot (robot.x - ped.x) (robot.y - ped.y)
  let overlap_distance := ((robot.radius + ped.radius : ℤ) : ℝ)
  if distance < overlap_distance then
    if (overlap_distance - distance) / overlap_distance < 0.33 then OVERLAP_PENALTY_LOW
    else if (overlap_distance - distance) / overlap_distance < 0.66 then OVERLAP_PENALTY_MID
    else OVERLAP_PENALTY_HIGH
  else if distance < CLOSE_RADIUS then NEAR_PENALTY
  else 0

/-- main.compute_penalty: fold the loop body over the pedestrian list,
starting from 0.0. -/
def computePenalty (robot : Robot) (pedestrians : List Ped) : ℝ :=
  pedestrians.foldl (fun frame_penalty ped => frame_penalty + pedPenalty robot ped) 0.0

/-! ## Scenario builder (environment/scenarios.py) -/

/-- The ScenarioTemplate dataclass. -/
structure ScenarioTemplate where
  scenario_id : String
  name : String
  robot_start : ℚ × ℚ
  robot_goal : ℚ × ℚ
  obstacles : List (ℤ × ℤ × ℤ × ℤ)
  pedestrian_spawn_regions : List (ℤ × ℤ × ℤ × ℤ)
  pedestrian_goal_regions : List (ℤ × ℤ × ℤ × ℤ)
  obstacle_jitter_px : ℤ
  obstacle_size_jitter_px : ℤ
  extra_obstacle_range : ℤ × ℤ
  random_obstacle_size_range : ℤ × ℤ

/-- The Scenario dataclass. -/
structure Scenario where
  scenario_id : String
  name : String
  robot_start : ℚ × ℚ
  robot_goal : ℚ × ℚ
  obstacles : List Rect
  pedestrian_spawn_regions : List Rect
  pedestrian_goal_regions : List Rect

/-- Source _rect_to_safe_bounds. -/
def rectToSafeBounds (W H : ℤ) (x y w h : ℤ) : Rect :=
  let w' := max 20 (min w (W - 20))
  let h' := max 20 (min h (H - 20))
  let x' := max 0 (min x (W - w'))
  let y' := max 0 (min y (H - h'))
  ⟨x', y', w', h'⟩

/-- Source _randomized_obstacle: jitter position and size, then clamp. -/
def randomizedObstacle (W H : ℤ) (rect : ℤ × ℤ × ℤ × ℤ) (rng : Rng)
    (position_jitter size_jitter : ℤ) : Rect × Rng :=
  let x0 := rect.1
  let y0 := rect.2.1
  let w0 := rect.2.2.1
  let h0 := rect.2.2.2
  let pos : ℤ × ℤ × Rng :=
    if position_jitter > 0 then
      (x0 + (rngIntegers (-position_jitter) (position_jitter + 1) rng).1,
       y0 + (rngIntegers (-position_jitter) (position_jitter + 1)
          (rngIntegers (-position_jitter) (position_jitter + 1) rng).2).1,
       (rngIntegers (-position_jitter) (position_jitter + 1)
          (rngIntegers (-position_jitter) (position_jitter + 1) rng).2).2)
    else (x0, y0, rng)
  let rng1 := pos.2.2
  let size : ℤ × ℤ × Rng :=
    if size_jitter > 0 then
      (w0 + (rngIntegers (-size_jitter) (size_jitter + 1) rng1).1,
       h0 + (rngIntegers (-size_jitter) (size_jitter + 1)
          (rngIntegers (-size_jitter) (size_jitter + 1) rng1).2).1,
       (rngIntegers (-size_jitter) (size_jitter + 1)
          (rngIntegers (-size_jitter) (size_jitter + 1) rng1).2).2)
    else (w0, h0, rng1)
  (rectToSafeBounds W H pos.1 pos.2.1 size.1 size.2.1, size.2.2)

/-- Source _circle_hits_rect: distance from the center to the closest point of
the rectangle is at most the radius (non-strict). -/
def circleHitsRect (center : ℚ × ℚ) (radius : ℤ) (rect : Rect) : Bool :=
  let cx := center.1
  let cy := center.2
  let closest_x := max (rect.x : ℚ) (min cx ((rect.x + rect.w : ℤ) : ℚ))
  let closest_y := max (rect.y : ℚ) (min cy ((rect.y + rect.h : ℤ) : ℚ))
  let dx := cx - closest_x
  let dy := cy - closest_y
  decide (dx * dx + dy * dy ≤ ((radius * radius : ℤ) : ℚ))

/-- The inner `for _attempt in range(30)` loop of _sample_extra_obstacles:
draw a candidate, reject it when it hits a robot disk or an inflated
existing obstacle, retry while fuel remains; `none` when every attempt
was rejected. -/
def tryPlaceExtra (W H : ℤ) (t : ScenarioTemplate) (out : List Rect) :
    ℕ → Rng → Option Rect × Rng
  | 0, rng => (none, rng)
  | fuel + 1, rng =>
    let min_size := t.random_obstacle_size_range.1
    let max_size := t.random_obstacle_size_range.2
    let w := (rngIntegers min_size (max_size + 1) rng).1
    let rng1 := (rngIntegers min_size (max_size + 1) rng).2
    let h := (rngIntegers min_size (max_size + 1) rng1).1
    let rng2 := (rngIntegers min_size (max_size + 1) rng1).2
    let x := (rngIntegers 0 (max 1 (W - w)) rng2).1
    let rng3 := (rngIntegers 0 (max 1 (W - w)) rng2).2
    let y := (rngIntegers 0 (max 1 (H - h)) rng3).1
    let rng4 := (rngIntegers 0 (max 1 (H - h)) rng3).2
    let rect := rectToSafeBounds W H x y w h
    if circleHitsRect t.robot_start 45 rect then tryPlaceExtra W H t out fuel rng4
    else if circleHitsRect t.robot_goal 45 rect then tryPlaceExtra W H t out fuel rng4
    else if out.any (fun existing => rect.colliderect (existing.inflate 20 20)) then
      tryPlaceExtra W H t out fuel rng4
    else (some rect, rng4)

/-- The outer `for _ in range(count)` loop of _sample_extra_obstacles:
each candidate gets 30 attempts; a candidate that cannot be placed is
silently skipped. -/
def placeExtras (W H : ℤ) (t : ScenarioTemplate) :
    ℕ → List Rect → Rng → List Rect × Rng
  | 0, out, rng => (out, rng)
  | count + 1, out, rng =>
    match tryPlaceExtra W H t out 30 rng with
    | (some rect, rng') => placeExtras W H t count (out ++ [rect]) rng'
    | (none, rng') => placeExtras W H t count out rng'

/-- The count of extra obstacles drawn by _sample_extra_obstacles:
`rng.integers(extra_min, extra_max + 1)`. -/
def extraCount (t : ScenarioTemplate) (rng : Rng) : ℤ × Rng :=
  rngIntegers t.extra_obstacle_range.1 (t.extra_obstacle_range.2 + 1) rng

/-- Source _sample_extra_obstacles. -/
def sampleExtraObstacles (W H : ℤ) (t : ScenarioTemplate) (obstacles : List Rect)
    (rng : Rng) : List Rect × Rng :=
  let out := obstacles
  if t.extra_obstacle_range.2 ≤ 0 then (out, rng)
  else
    let count := (extraCount t rng).1
    let rng1 := (extraCount t rng).2
    placeExtras W H t count.toNat out rng1

/-- The jittered base obstacles of build_scenario's randomize branch,
threading the generator left to right through the list comprehension. -/
def jitteredObstacles (W H : ℤ) (t : ScenarioTemplate) :
    List (ℤ × ℤ × ℤ × ℤ) → Rng → List Rect × Rng
  | [], rng => ([], rng)
  | rect :: rest, rng =>
    let r := (randomizedObstacle W H rect rng t.obstacle_jitter_px t.obstacle_size_jitter_px).1
    let rng1 := (randomizedObstacle W H rect rng t.obstacle_jitter_px t.obstacle_size_jitter_px).2
    let rest' := (jitteredObstacles W H t rest rng1).1
    let rng2 := (jitteredObstacles W H t rest rng1).2
    (r :: rest', rng2)

/-- build_scenario.  The mutated numpy generator is returned alongside
the scenario. -/
def buildScenario (W H : ℤ) (t : ScenarioTemplate) (rng : Rng)
    (randomize_world : Bool) : Scenario × Rng :=
  let obs_rng : List Rect × Rng :=
    if randomize_world then
      sampleExtraObstacles W H t (jitteredObstacles W H t t.obstacles rng).1
        (jitteredObstacles W H t t.obstacles rng).2
    else
      (t.obstacles.map fun r => rectToSafeBounds W H r.1 r.2.1 r.2.2.1 r.2.2.2, rng)
  let obstacles := obs_rng.1
  let rng' := obs_rng.2
  (⟨t.scenario_id, t.name, t.robot_start, t.robot_goal, obstacles,
    t.pedestrian_spawn_regions.map fun r => ⟨r.1, r.2.1, r.2.2.1, r.2.2.2⟩,
    t.pedestrian_goal_regions.map fun r => ⟨r.1, r.2.1, r.2.2.1, r.2.2.2⟩⟩,
   rng')

/-- random_point_in_region with the default margin 12. -/
def randomPointInRegion (region : Rect) (rng : Rng) : (ℚ × ℚ) × Rng :=
  let left := region.x + 12
  let right := region.x + region.w - 12
  let top := region.y + 12
  let bottom := region.y + region.h - 12
  let px := (rngUniform (left : ℚ) (right : ℚ) rng).1
  let rng1 := (rngUniform (left : ℚ) (right : ℚ) rng).2
  let py := (rngUniform (top : ℚ) (bottom : ℚ) rng1).1
  let rng2 := (rngUniform (top : ℚ) (bottom : ℚ) rng1).2
  ((px, py), rng2)

/-- random_pedestrian_route: pick a spawn region, a goal region, then a
point in each. -/
def randomPedestrianRoute (s : Scenario) (rng : Rng) :
    ((ℚ × ℚ) × (ℚ × ℚ)) × Rng :=
  let si := (rngIntegers 0 s.pedestrian_spawn_regions.length rng).1
  let rng1 := (rngIntegers 0 s.pedestrian_spawn_regions.length rng).2
  let gi := (rngIntegers 0 s.pedestrian_goal_regions.length rng1).1
  let rng2 := (rngIntegers 0 s.pedestrian_goal_regions.length rng1).2
  let spawn_region := s.pedestrian_spawn_regions.getD si.toNat ⟨0, 0, 0, 0⟩
  let goal_region := s.pedestrian_goal_regions.getD gi.toNat ⟨0, 0, 0, 0⟩
  let spawn := (randomPointInRegion spawn_region rng2).1
  let rng3 := (randomPointInRegion spawn_region rng2).2
  let goal := (randomPointInRegion goal_region rng3).1
  let rng4 := (randomPointInRegion goal_region rng3).2
  ((spawn, goal), rng4)

/-- main.generate_pedestrians: `count` fresh pedestrians, each from a
sampled route, with zero velocity and default parameters. -/
def generatePedestrians (s : Scenario) (rng : Rng) : ℕ → List Ped × Rng
  | 0 => ([], rng)
  | count + 1 =>
    let route := (randomPedestrianRoute s rng).1
    let rng1 := (randomPedestrianRoute s rng).2
    let p : Ped :=
      { x := (route.1.1 : ℝ), y := (route.1.2 : ℝ), vx := 0.0, vy := 0.0,
        goal_x := (route.2.1 : ℝ), goal_y := (route.2.2 : ℝ) }
    (p :: (generatePedestrians s rng1 count).1, (generatePedestrians s rng1 count).2)

/-- main.reassign_reached_goals: pedestrians that reached their goal
get a fresh route, position and zeroed velocity, in list order. -/
def reassignReachedGoals (s : Scenario) : List Ped → Rng → List Ped × Rng
  | [], rng => ([], rng)
  | p :: rest, rng =>
    if hypot (p.goal_x - p.x) (p.goal_y - p.y) < 15.0 then
      let route := (randomPedestrianRoute s rng).1
      let rng1 := (randomPedestrianRoute s rng).2
      let p' : Ped :=
        { p with x := (route.1.1 : ℝ), y := (route.1.2 : ℝ), vx := 0.0, vy := 0.0,
                 goal_x := (route.2.1 : ℝ), goal_y := (route.2.2 : ℝ) }
      (p' :: (reassignReachedGoals s rest rng1).1, (reassignReachedGoals s rest rng1).2)
    else
      (p :: (reassignReachedGoals s rest rng).1, (reassignReachedGoals s rest rng).2)

/-! ## Control strategies (agent/behaviors.py) and the tick loop (main.run) -/

/-- The ControlMode enum. -/
inductive Mode where
  | MANUAL
  | NAIVE
  | RANDOM
  | POTENTIAL_FIELD
  deriving DecidableEq, Repr

/-- The directional key-state snapshot a tick sees (`keys[K_w] or
keys[K_UP]` etc. collapse to one flag per direction). -/
structure Keys where
  up : Bool
  down : Bool
  left : Bool
  right : Bool

/-- pygame.Vector2.length_squared. -/
def lengthSq (v : ℝ × ℝ) : ℝ := v.1 ^ 2 + v.2 ^ 2

/-- pygame.Vector2.length. -/
def vecLength (v : ℝ × ℝ) : ℝ := hypot v.1 v.2

/-- pygame.Vector2.normalize: scale to unit length (callers guard
against the zero vector). -/
def vecNormalize (v : ℝ × ℝ) : ℝ × ℝ :=
  (v.1 / vecLength v, v.2 / vecLength v)

/-- behaviors.get_manual_move. -/
def getManualMove (keys : Keys) : ℝ × ℝ :=
  let y0 : ℝ := if keys.up then -1 else 0
  let y1 : ℝ := if keys.down then y0 + 1 else y0
  let x0 : ℝ := if keys.left then -1 else 0
  let x1 : ℝ := if keys.right then x0 + 1 else x0
  (x1, y1)

/-- behaviors.get_naive_move. -/
def getNaiveMove (robot : Robot) (goal_pos : ℝ × ℝ) : ℝ × ℝ :=
  let direction := (goal_pos.1 - robot.x, goal_pos.2 - robot.y)
  if lengthSq direction > 0 then vecNormalize direction else (0, 0)

/-- behaviors.get_random_move: two draws from the process-global
`random` module, which `init_rng` never seeds. -/
def getRandomMove (pyr : PyRandom) : (ℝ × ℝ) × PyRandom :=
  let cx := (pyChoice [-1, 0, 1] pyr).1
  let pyr1 := (pyChoice [-1, 0, 1] pyr).2
  let cy := (pyChoice [-1, 0, 1] pyr1).1
  let pyr2 := (pyChoice [-1, 0, 1] pyr1).2
  (((cx : ℝ), (cy : ℝ)), pyr2)

/-- behaviors.get_potential_field_move. -/
def getPotentialFieldMove (robot : Robot) (goal_pos : ℝ × ℝ)
    (pedestrians : List Ped) : ℝ × ℝ :=
  let to_goal := (goal_pos.1 - robot.x, goal_pos.2 - robot.y)
  let attract := if vecLength to_goal > 0 then
      ((vecNormalize to_goal).1 * 1.0, (vecNormalize to_goal).2 * 1.0)
    else (0, 0)
  let repel := pedestrians.foldl
    (fun acc ped =>
      let to_robot := (robot.x - ped.x, robot.y - ped.y)
      let dist := vecLength to_robot
      if 0 < dist ∧ dist < 60.0 then
        let strength := 50.0 / (dist * dist)
        (acc.1 + (vecNormalize to_robot).1 * strength,
         acc.2 + (vecNormalize to_robot).2 * strength)
      else acc)
    (0, 0)
  (attract.1 + repel.1, attract.2 + repel.2)

/-- BEHAVIORS[MODE](robot, goal_pos, pedestrians, keys): only the
RANDOM strategy touches the global `random` state. -/
def behavior (mode : Mode) (robot : Robot) (goal_pos : ℝ × ℝ)
    (pedestrians : List Ped) (keys : Keys) (pyr : PyRandom) :
    (ℝ × ℝ) × PyRandom :=
  match mode with
  | Mode.MANUAL => (getManualMove keys, pyr)
  | Mode.NAIVE => (getNaiveMove robot goal_pos, pyr)
  | Mode.RANDOM => getRandomMove pyr
  | Mode.POTENTIAL_FIELD => (getPotentialFieldMove robot goal_pos pedestrians, pyr)

/-- The in-place pedestrian sweep `for ped in pedestrians:
ped.update(pedestrians, obstacles, rng)`: each pedestrian is updated
against the current list (already-updated predecessors, not-yet-updated
successors), with itself removed in place of the `other is self`
identity skip.  `fuel` counts the remaining indices. -/
def updateLoop (W H : ℤ) (obstacles : List Rect) :
    ℕ → ℕ → List Ped → Rng → List Ped × Rng
  | 0, _, peds, rng => (peds, rng)
  | fuel + 1, i, peds, rng =>
    let p := peds.getD i default
    let p' := (Ped.update W H p (peds.eraseIdx i) obstacles rng).1
    let rng' := (Ped.update W H p (peds.eraseIdx i) obstacles rng).2
    updateLoop W H obstacles fuel (i + 1) (peds.set i p') rng'

/-- One full in-place sweep over the pedestrian list. -/
def updateAll (W H : ℤ) (obstacles : List Rect) (peds : List Ped) (rng : Rng) :
    List Ped × Rng :=
  updateLoop W H obstacles peds.length 0 peds rng

/-- main.build_episode_state: scenario, robot at the scenario start,
fresh pedestrians. -/
def buildEpisodeState (W H : ℤ) (t : ScenarioTemplate) (rng : Rng)
    (pedestrian_count : ℕ) (random_world : Bool) :
    Scenario × Robot × List Ped × Rng :=
  let scenario := (buildScenario W H t rng random_world).1
  let rng1 := (buildScenario W H t rng random_world).2
  let robot : Robot := { x := (scenario.robot_start.1 : ℝ), y := (scenario.robot_start.2 : ℝ) }
  (scenario, robot, (generatePedestrians scenario rng1 pedestrian_count).1,
   (generatePedestrians scenario rng1 pedestrian_count).2)

/-- The per-episode mutable state of main.run, with the numpy generator
and the global `random` state carried explicitly. -/
structure World where
  scen : Scenario
  robot : Robot
  peds : List Ped
  rng : Rng
  pyr : PyRandom

/-- The fixed per-run configuration of main.run. -/
structure SimConfig where
  template : ScenarioTemplate
  mode : Mode
  pedestrian_count : ℕ
  random_world : Bool

/-- One iteration of main.run's while loop (the simulation part:
strategy → robot move → pedestrian sweep → goal reassignment → episode
reset on goal reach; event handling and drawing are external I/O). -/
def simStep (W H : ℤ) (cfg : SimConfig) (keys : Keys) (w : World) : World :=
  let goal_pos := ((w.scen.robot_goal.1 : ℝ), (w.scen.robot_goal.2 : ℝ))
  let move := (behavior cfg.mode w.robot goal_pos w.peds keys w.pyr).1
  let pyr1 := (behavior cfg.mode w.robot goal_pos w.peds keys w.pyr).2
  let robot1 :=
    if lengthSq move > 0 then
      Robot.moveWithObstacles W H w.robot
        ((vecNormalize move).1 * w.robot.speed, (vecNormalize move).2 * w.robot.speed)
        w.scen.obstacles
    else w.robot
  let peds1 := (updateAll W H w.scen.obstacles w.peds w.rng).1
  let rng1 := (updateAll W H w.scen.obstacles w.peds w.rng).2
  let peds2 := (reassignReachedGoals w.scen peds1 rng1).1
  let rng2 := (reassignReachedGoals w.scen peds1 rng1).2
  let distance_to_goal := vecLength (robot1.x - goal_pos.1, robot1.y - goal_pos.2)
  if distance_to_goal < GOAL_RADIUS then
    let ep := buildEpisodeState W H cfg.template rng2 cfg.pedestrian_count cfg.random_world
    ⟨ep.1, ep.2.1, ep.2.2.1, ep.2.2.2, pyr1⟩
  else
    ⟨w.scen, robot1, peds2, rng2, pyr1⟩

/-- Run `n` ticks, feeding tick `k` the key snapshot `ks k`. -/
def runN (W H : ℤ) (cfg : SimConfig) (ks : ℕ → Keys) : ℕ → World → World
  | 0, w => w
  | n + 1, w => simStep W H cfg (ks n) (runN W H cfg ks n w)

/-- The agent state a tick exposes: robot position and the full
pedestrian records (positions and velocities). -/
def observe (w : World) : Robot × List Ped := (w.robot, w.peds)

/-- The trajectory of a run: the observable agent state after each of
the first `n` ticks. -/
def traceN (W H : ℤ) (cfg : SimConfig) (ks : ℕ → Keys) (n : ℕ) (w : World) :
    List (Robot × List Ped) :=
  (List.range n).map fun k => observe (runN W H cfg ks (k + 1) w)

/-! ## Closed-point containment and concrete instances used in witnesses -/

/-- A point lies in the closed rectangle (the geometric reading of
"inside the spawn region"). -/
def inRect (r : Rect) (x y : ℝ) : Prop :=
  (r.x : ℝ) ≤ x ∧ x ≤ ((r.x + r.w : ℤ) : ℝ) ∧ (r.y : ℝ) ≤ y ∧ y ≤ ((r.y + r.h : ℤ) : ℝ)

/-- A generator whose every draw is the pair `(0, 0)`. -/
def rngZero : Rng := ⟨fun _ => (0, 0), 0⟩

/-- A generator whose every unit-interval draw is `3/4`. -/
def rng34 : Rng := ⟨fun _ => (0, 3/4), 0⟩

/-- A pedestrian at the origin with all-default parameters. -/
def pedW : Ped := { x := 0, y := 0, vx := 0, vy := 0, goal_x := 0, goal_y := 0 }

/-- A pedestrian already at its goal, with a tiny `max_speed`, standing
inside a wall-to-wall obstacle. -/
def pedStuck : Ped :=
  { x := 100, y := 100, vx := 0, vy := 0, goal_x := 100, goal_y := 100, max_speed := 0.1 }

/-- An obstacle covering the whole 800 × 600 canvas. -/
def bigRect : Rect := ⟨0, 0, 800, 600⟩

/-- A robot at the origin (radius 12). -/
def robotC : Robot := { x := 0, y := 0 }

/-- Radius-8 pedestrian 19 units from `robotC`: overlap ratio 0.05. -/
def pedNear : Ped := { x := 19, y := 0, vx := 0, vy := 0, goal_x := 0, goal_y := 0, radius := 8 }

/-- Radius-8 pedestrian 5 units from `robotC`: overlap ratio 0.75. -/
def pedDeep : Ped := { x := 5, y := 0, vx := 0, vy := 0, goal_x := 0, goal_y := 0, radius := 8 }

/-- Radius-8 pedestrian 13.4 units from `robotC`: overlap ratio is
exactly `(20 - 13.4)/20 = 0.33`, the 0.5/1.0 band boundary. -/
def pedEdge : Ped := { x := 13.4, y := 0, vx := 0, vy := 0, goal_x := 0, goal_y := 0, radius := 8 }

/-- A template whose single base obstacle contains the robot start
point, with no jitter and no extra obstacles. -/
def tmplBad : ScenarioTemplate :=
  ⟨"blocked_start", "Blocked start", (100, 100), (700, 500), [(80, 80, 40, 40)],
   [(10, 400, 60, 60)], [(600, 60, 60, 60)], 0, 0, (0, 0), (35, 110)⟩

/-- A benign template: one base obstacle away from the robot disks. -/
def tmplOk : ScenarioTemplate :=
  ⟨"clear", "Clear", (100, 100), (700, 500), [(300, 200, 120, 40)],
   [(10, 400, 60, 60)], [(600, 60, 60, 60)], 0, 0, (0, 0), (35, 110)⟩

/-- A scenario whose only spawn region is 5 × 5, thinner than the
12-unit sampling margin. -/
def scenSmall : Scenario :=
  ⟨"tiny", "Tiny", (400, 80), (700, 80), [], [⟨0, 0, 5, 5⟩], [⟨50, 50, 40, 40⟩]⟩

/-- An obstacle-free scenario with the robot far from its goal. -/
def scenRun : Scenario :=
  ⟨"empty", "Empty", (80, 80), (700, 80), [], [⟨10, 400, 60, 60⟩], [⟨600, 60, 60, 60⟩]⟩

/-- RANDOM-mode run configuration with zero pedestrians. -/
def cfgRand : SimConfig := ⟨tmplOk, Mode.RANDOM, 0, false⟩

/-- NAIVE-mode run configuration with zero pedestrians. -/
def cfgNaive : SimConfig := ⟨tmplOk, Mode.NAIVE, 0, false⟩

/-- Global-`random` state whose draws always pick `choice` index 1,
i.e. the move component 0. -/
def pyrStill : PyRandom := ⟨fun _ => 1, 0⟩

/-- Global-`random` state whose first draw picks index 2 (component 1)
and later draws index 1 (component 0). -/
def pyrRight : PyRandom := ⟨fun n => if n = 0 then 2 else 1, 0⟩

/-- Initial world for the determinism counterexample: empty pedestrian
list, no obstacles, robot at (80, 80). -/
def worldRun : World := ⟨scenRun, { x := 80, y := 80 }, [], rngZero, pyrStill⟩

/-- An all-released key snapshot at every tick. -/
def ksNone : ℕ → Keys := fun _ => ⟨false, false, false, false⟩

end

/-! ## Helper lemmas -/

theorem hypot_nonneg (a b : ℝ) : 0 ≤ hypot a b := Real.sqrt_nonneg _

theorem hypot_eq_complex (a b : ℝ) : hypot a b = Complex.abs ⟨a, b⟩ := by
  rw [Complex.abs_apply, Complex.normSq_mk, hypot]
  norm_num [sq]

theorem hypot_add_le (a b c d : ℝ) :
    hypot (a + c) (b + d) ≤ hypot a b + hypot c d := by
  rw [hypot_eq_complex, hypot_eq_complex, hypot_eq_complex]
  have h : (⟨a + c, b + d⟩ : ℂ) = ⟨a, b⟩ + ⟨c, d⟩ := by
    apply Complex.ext <;> simp
  rw [h]
  exact Complex.abs.add_le _ _

theorem hypot_scale (r a b : ℝ) : hypot (r * a) (r * b) = |r| * hypot a b := by
  rw [hypot_eq_complex, hypot_eq_complex]
  have h : (⟨r * a, r * b⟩ : ℂ) = (r : ℂ) * ⟨a, b⟩ := by
    apply Complex.ext <;> simp [Complex.mul_re, Complex.mul_im]
  rw [h, map_mul, Complex.abs_ofReal]

theorem hypot_mono {a b c d : ℝ} (h1 : a ^ 2 ≤ c ^ 2) (h2 : b ^ 2 ≤ d ^ 2) :
    hypot a b ≤ hypot c d :=
  Real.sqrt_le_sqrt (by linarith)

theorem foldl_add_map_sum {α : Type} (f : α → ℝ) :
    ∀ (l : List α) (a : ℝ), l.foldl (fun acc x => acc + f x) a = a + (l.map f).sum
  | [], a => by simp
  | x :: xs, a => by
    simp only [List.foldl_cons, List.map_cons, List.sum_cons, foldl_add_map_sum f xs]
    ring

/-! ## C10: Pedestrian.update mutates only position and velocity -/

/-- C10: for every pedestrian and every input (others, obstacles, rng),
`Pedestrian.update` changes only the position fields (x, y) and the
velocity fields (vx, vy): the goal coordinates, the radius and all
tunable parameters of the result equal those of the input pedestrian.
(In this state-passing embedding the `others` list is untouched by
construction, matching the Python method, which assigns only to `self`
attributes.) -/
theorem c10_update_frame (W H : ℤ) (p : Ped) (others : List Ped)
    (obstacles : List Rect) (rng : Rng) :
    (Ped.update W H p others obstacles rng).1.goal_x = p.goal_x ∧
    (Ped.update W H p others obstacles rng).1.goal_y = p.goal_y ∧
    (Ped.update W H p others obstacles rng).1.radius = p.radius ∧
    (Ped.update W H p others obstacles rng).1.desired_speed = p.desired_speed ∧
    (Ped.update W H p others obstacles rng).1.relaxation_time = p.relaxation_time ∧
    (Ped.update W H p others obstacles rng).1.max_speed = p.max_speed ∧
    (Ped.update W H p others obstacles rng).1.ped_A = p.ped_A ∧
    (Ped.update W H p others obstacles rng).1.ped_B = p.ped_B ∧
    (Ped.update W H p others obstacles rng).1.wall_A = p.wall_A ∧
    (Ped.update W H p others obstacles rng).1.wall_B = p.wall_B :=
  ⟨rfl, rfl, rfl, rfl, rfl, rfl, rfl, rfl, rfl, rfl⟩

/-! ## C4: position stays in the clamped world box -/

/-- C4: for every pedestrian whose radius is at most half the world
width and height, the position after `Pedestrian.update` lies in
`[radius, W - radius] × [radius, H - radius]`, whatever forces,
obstacles and branch were taken (the final hard clamp guarantees it). -/
theorem c4_position_bounds (W H : ℤ) (p : Ped) (others : List Ped)
    (obstacles : List Rect) (rng : Rng)
    (hW : 2 * (p.radius : ℝ) ≤ (W : ℝ)) (hH : 2 * (p.radius : ℝ) ≤ (H : ℝ)) :
    (p.radius : ℝ) ≤ (Ped.update W H p others obstacles rng).1.x ∧
    (Ped.update W H p others obstacles rng).1.x ≤ (W : ℝ) - (p.radius : ℝ) ∧
    (p.radius : ℝ) ≤ (Ped.update W H p others obstacles rng).1.y ∧
    (Ped.update W H p others obstacles rng).1.y ≤ (H : ℝ) - (p.radius : ℝ) := by
  refine ⟨le_max_left _ _, max_le (by linarith) (min_le_left _ _),
    le_max_left _ _, max_le (by linarith) (min_le_left _ _)⟩

/-- Witness for C4 at a concrete input: the default-radius pedestrian
`pedW` in an 800 × 600 world. -/
theorem c4_position_bounds_witness :
    (2 * ((pedW.radius : ℤ) : ℝ) ≤ ((800 : ℤ) : ℝ) ∧
     2 * ((pedW.radius : ℤ) : ℝ) ≤ ((600 : ℤ) : ℝ)) ∧
    ((pedW.radius : ℝ) ≤ (Ped.update 800 600 pedW [] [] rngZero).1.x ∧
     (Ped.update 800 600 pedW [] [] rngZero).1.x ≤ ((800 : ℤ) : ℝ) - (pedW.radius : ℝ) ∧
     (pedW.radius : ℝ) ≤ (Ped.update 800 600 pedW [] [] rngZero).1.y ∧
     (Ped.update 800 600 pedW [] [] rngZero).1.y ≤ ((600 : ℤ) : ℝ) - (pedW.radius : ℝ)) :=
  ⟨⟨by norm_num [pedW], by norm_num [pedW]⟩,
   c4_position_bounds 800 600 pedW [] [] rngZero
     (by norm_num [pedW]) (by norm_num [pedW])⟩

/-! ## C1: the penalty band structure of compute_penalty -/

/-- C1 (amended): `compute_penalty` sums, over the pedestrian list, a
per-pedestrian contribution that — whenever the center distance `d` is
strictly below `overlap_distance` (the sum of radii) — is exactly 0.5
when `(overlap_distance - d)/overlap_distance < 0.33`, exactly 1.0 when
that ratio is in `[0.33, 0.66)`, and exactly 1.5 when it is `≥ 0.66`.
A distance exactly at the overlap threshold (`d = overlap_distance`)
falls outside the overlap branch (strict `<`), but a ratio exactly at a
band boundary (0.33 or 0.66) falls into the HIGHER-severity band, since
the strict comparisons are on the ratio, not on the distance. -/
theorem c1_penalty_bands :
    (∀ (robot : Robot) (peds : List Ped),
      computePenalty robot peds = (peds.map (pedPenalty robot)).sum) ∧
    (∀ (robot : Robot) (ped : Ped),
      hypot (robot.x - ped.x) (robot.y - ped.y) < ((robot.radius + ped.radius : ℤ) : ℝ) →
      ((((robot.radius + ped.radius : ℤ) : ℝ) - hypot (robot.x - ped.x) (robot.y - ped.y)) /
            ((robot.radius + ped.radius : ℤ) : ℝ) < 0.33 →
        pedPenalty robot ped = 0.5) ∧
      (0.33 ≤ (((robot.radius + ped.radius : ℤ) : ℝ) - hypot (robot.x - ped.x) (robot.y - ped.y)) /
            ((robot.radius + ped.radius : ℤ) : ℝ) →
       (((robot.radius + ped.radius : ℤ) : ℝ) - hypot (robot.x - ped.x) (robot.y - ped.y)) /
            ((robot.radius + ped.radius : ℤ) : ℝ) < 0.66 →
        pedPenalty robot ped = 1.0) ∧
      (0.66 ≤ (((robot.radius + ped.radius : ℤ) : ℝ) - hypot (robot.x - ped.x) (robot.y - ped.y)) /
            ((robot.radius + ped.radius : ℤ) : ℝ) →
        pedPenalty robot ped = 1.5)) := by
  constructor
  · intro robot peds
    rw [computePenalty, foldl_add_map_sum (pedPenalty robot) peds 0.0]
    norm_num
  · intro robot ped hlt
    refine ⟨fun hr => ?_, fun hr hr' => ?_, fun hr => ?_⟩
    · rw [pedPenalty, if_pos hlt, if_pos hr]
      norm_num [OVERLAP_PENALTY_LOW]
    · rw [pedPenalty, if_pos hlt, if_neg (not_lt.mpr hr), if_pos hr']
      norm_num [OVERLAP_PENALTY_MID]
    · rw [pedPenalty, if_pos hlt, if_neg (not_lt.mpr (by linarith)),
        if_neg (not_lt.mpr (by linarith))]
      norm_num [OVERLAP_PENALTY_HIGH]

/-- Witness for C1 at the spec's concrete inputs: `overlap_distance`
20 (radii 12 + 8), distance 19 (ratio 0.05) contributes exactly 0.5 and
distance 5 (ratio 0.75) contributes exactly 1.5; the frame penalty is
the sum over pedestrians. -/
theorem c1_penalty_bands_witness :
    pedPenalty robotC pedNear = 0.5 ∧ pedPenalty robotC pedDeep = 1.5 ∧
    computePenalty robotC [pedNear, pedDeep] =
      ([pedNear, pedDeep].map (pedPenalty robotC)).sum := by
  have h19 : hypot (robotC.x - pedNear.x) (robotC.y - pedNear.y) = 19 := by
    rw [hypot, show (robotC.x - pedNear.x) ^ 2 + (robotC.y - pedNear.y) ^ 2 = 19 ^ 2 by
      norm_num [robotC, pedNear]]
    exact Real.sqrt_sq (by norm_num)
  have h5 : hypot (robotC.x - pedDeep.x) (robotC.y - pedDeep.y) = 5 := by
    rw [hypot, show (robotC.x - pedDeep.x) ^ 2 + (robotC.y - pedDeep.y) ^ 2 = 5 ^ 2 by
      norm_num [robotC, pedDeep]]
    exact Real.sqrt_sq (by norm_num)
  refine ⟨?_, ?_, c1_penalty_bands.1 robotC [pedNear, pedDeep]⟩
  · exact (c1_penalty_bands.2 robotC pedNear (by rw [h19]; norm_num [robotC, pedNear])).1
      (by rw [h19]; norm_num [robotC, pedNear])
  · exact (c1_penalty_bands.2 robotC pedDeep (by rw [h5]; norm_num [robotC, pedDeep])).2.2
      (by rw [h5]; norm_num [robotC, pedDeep])

/-- Counterexample to C1 as stated: with `overlap_distance = 20` and
distance exactly 13.4 — the boundary between the 0.5 and 1.0 bands,
ratio exactly 0.33 — the contribution is 1.0 (the higher-severity
band), not the lower-severity 0.5 the claim's tie-breaking sentence
predicts. -/
theorem c1_penalty_boundary_cex :
    pedPenalty robotC pedEdge = 1 ∧ ¬ pedPenalty robotC pedEdge = 0.5 := by
  have hd : hypot (robotC.x - pedEdge.x) (robotC.y - pedEdge.y) = 13.4 := by
    rw [hypot, show (robotC.x - pedEdge.x) ^ 2 + (robotC.y - pedEdge.y) ^ 2 = 13.4 ^ 2 by
      norm_num [robotC, pedEdge]]
    exact Real.sqrt_sq (by norm_num)
  have h1 : pedPenalty robotC pedEdge = 1 := by
    rw [pedPenalty, hd]
    rw [if_pos (by norm_num [robotC, pedEdge]),
      if_neg (by norm_num [robotC, pedEdge]), if_pos (by norm_num [robotC, pedEdge])]
    norm_num [OVERLAP_PENALTY_MID]
  exact ⟨h1, by rw [h1]; norm_num⟩

/-! ## C7: obstacle-resolution case order of Pedestrian.update -/

/-- C7: `Pedestrian.update` resolves obstacles in exactly this case
order — full move if it does not collide (in particular when the
obstacle list is empty), else x-only if collision-free, else y-only if
collision-free, else bounce: each velocity component is multiplied by
-0.4 and perturbed by a uniform `[-0.2, 0.2]` draw from the supplied
generator, and the position advances by the new velocity from the
pre-move point.  (Every branch then passes through the final world
clamp, which claim C4 covers.) -/
theorem c7_update_case_order (W H : ℤ) (p : Ped) (others : List Ped)
    (obstacles : List Rect) (rng : Rng) :
    Ped.update W H p others obstacles rng =
      (let v := clampedVelocity W H p others
       let proposed_x := p.x + v.1
       let proposed_y := p.y + v.2
       let finish : (ℝ × ℝ) → (ℝ × ℝ) → Rng → Ped × Rng := fun pos vel rng' =>
         (⟨max (p.radius : ℝ) (min ((W : ℝ) - (p.radius : ℝ)) pos.1),
           max (p.radius : ℝ) (min ((H : ℝ) - (p.radius : ℝ)) pos.2),
           vel.1, vel.2, p.goal_x, p.goal_y, p.radius, p.desired_speed,
           p.relaxation_time, p.max_speed, p.ped_A, p.ped_B, p.wall_A, p.wall_B⟩, rng')
       if wouldCollide p proposed_x proposed_y obstacles = false then
         finish (proposed_x, proposed_y) v rng
       else if wouldCollide p proposed_x p.y obstacles = false then
         finish (proposed_x, p.y) v rng
       else if wouldCollide p p.x proposed_y obstacles = false then
         finish (p.x, proposed_y) v rng
       else
         let u1 := (rngUniform (-0.2) 0.2 rng).1
         let rng1 := (rngUniform (-0.2) 0.2 rng).2
         let u2 := (rngUniform (-0.2) 0.2 rng1).1
         let rng2 := (rngUniform (-0.2) 0.2 rng1).2
         let bvx := v.1 * (-0.4) + (u1 : ℝ)
         let bvy := v.2 * (-0.4) + (u2 : ℝ)
         finish (p.x + bvx, p.y + bvy) (bvx, bvy) rng2) := by
  by_cases hemp : obstacles = []
  · subst hemp
    simp [Ped.update, wouldCollide]
  · have hne : obstacles.isEmpty = false := by
      simpa [List.isEmpty_iff] using hemp
    cases h1 : wouldCollide p (p.x + (clampedVelocity W H p others).1)
        (p.y + (clampedVelocity W H p others).2) obstacles
    · simp [Ped.update, hne, h1]
    · cases h2 : wouldCollide p (p.x + (clampedVelocity W H p others).1) p.y obstacles
      · simp [Ped.update, hne, h1, h2]
      · cases h3 : wouldCollide p p.x (p.y + (clampedVelocity W H p others).2) obstacles
        · simp [Ped.update, hne, h1, h2, h3]
        · simp [Ped.update, hne, h1, h2, h3, rngUniform, Rng.next]

/-! ## C3: the speed invariant after Pedestrian.update -/

/-- The velocity produced by the force-integration-and-clamp phase has
magnitude at most `max_speed`. -/
theorem clampedVelocity_le (W H : ℤ) (p : Ped) (others : List Ped)
    (hm : 0 ≤ p.max_speed) :
    hypot (clampedVelocity W H p others).1 (clampedVelocity W H p others).2 ≤
      p.max_speed := by
  rw [clampedVelocity]
  set a := p.vx + ((selfDrivingForce p).1 + (pedRepulsion H p others).1 +
    (wallRepulsion W p).1) with ha
  set b := p.vy + ((selfDrivingForce p).2 + (pedRepulsion H p others).2 +
    (wallRepulsion W p).2) with hb
  split_ifs with h
  · dsimp only
    have hs : 0 < hypot a b := lt_of_le_of_lt hm h
    have e1 : a / hypot a b * p.max_speed = (p.max_speed / hypot a b) * a := by ring
    have e2 : b / hypot a b * p.max_speed = (p.max_speed / hypot a b) * b := by ring
    rw [e1, e2, hypot_scale, abs_of_nonneg (div_nonneg hm hs.le), div_mul_cancel₀ _ hs.ne']
  · dsimp only
    exact le_of_not_lt h

/-- C3 (amended): for every pedestrian whose `max_speed` is at least
1/2 — in particular the dataclass default 3.0, which every pedestrian
constructed by the program has — the velocity magnitude after
`Pedestrian.update` is at most `max_speed`, including the bounce
branch, where a velocity already clamped to `max_speed` is scaled by
-0.4 and perturbed by at most 0.2 per axis: `0.4·max_speed + √0.08 ≤
max_speed` holds whenever `max_speed ≥ 1/2`. -/
theorem c3_speed_invariant (W H : ℤ) (p : Ped) (others : List Ped)
    (obstacles : List Rect) (rng : Rng) (hwf : rng.WF)
    (hm : (1 / 2 : ℝ) ≤ p.max_speed) :
    hypot (Ped.update W H p others obstacles rng).1.vx
      (Ped.update W H p others obstacles rng).1.vy ≤ p.max_speed := by
  have hm0 : (0 : ℝ) ≤ p.max_speed := by linarith
  have hv := clampedVelocity_le W H p others hm0
  rw [Ped.update]
  simp only
  split_ifs with hguard h2 h3
  · exact hv
  · exact hv
  · simp only [rngUniform, Rng.next]
    have hb1 := hwf rng.idx
    have hb2 := hwf (rng.idx + 1)
    set t1 : ℚ := (rng.stream rng.idx).2 with ht1
    set t2 : ℚ := (rng.stream (rng.idx + 1)).2 with ht2
    have hb1r : (0 : ℝ) ≤ (t1 : ℝ) ∧ (t1 : ℝ) < 1 :=
      ⟨by exact_mod_cast hb1.1, by exact_mod_cast hb1.2⟩
    have hb2r : (0 : ℝ) ≤ (t2 : ℝ) ∧ (t2 : ℝ) < 1 :=
      ⟨by exact_mod_cast hb2.1, by exact_mod_cast hb2.2⟩
    have hu1 : -(0.2 : ℝ) ≤ ((-0.2 + t1 * (0.2 - -0.2) : ℚ) : ℝ) ∧
        ((-0.2 + t1 * (0.2 - -0.2) : ℚ) : ℝ) ≤ 0.2 := by
      push_cast
      constructor <;> nlinarith [hb1r.1, hb1r.2]
    have hu2 : -(0.2 : ℝ) ≤ ((-0.2 + t2 * (0.2 - -0.2) : ℚ) : ℝ) ∧
        ((-0.2 + t2 * (0.2 - -0.2) : ℚ) : ℝ) ≤ 0.2 := by
      push_cast
      constructor <;> nlinarith [hb2r.1, hb2r.2]
    set v := clampedVelocity W H p others with hvdef
    set u1 : ℝ := ((-0.2 + t1 * (0.2 - -0.2) : ℚ) : ℝ) with hu1def
    set u2 : ℝ := ((-0.2 + t2 * (0.2 - -0.2) : ℚ) : ℝ) with hu2def
    calc hypot (v.1 * (-0.4) + u1) (v.2 * (-0.4) + u2)
        ≤ hypot (v.1 * (-0.4)) (v.2 * (-0.4)) + hypot u1 u2 := hypot_add_le _ _ _ _
      _ = |(-0.4 : ℝ)| * hypot v.1 v.2 + hypot u1 u2 := by
          rw [show v.1 * (-0.4) = (-0.4 : ℝ) * v.1 by ring,
            show v.2 * (-0.4) = (-0.4 : ℝ) * v.2 by ring, hypot_scale]
      _ ≤ 0.4 * p.max_speed + hypot (0.2 : ℝ) 0.2 := by
          have habs : |(-0.4 : ℝ)| = 0.4 := by norm_num
          rw [habs]
          have h1 : hypot u1 u2 ≤ hypot (0.2 : ℝ) 0.2 :=
            hypot_mono (sq_le_sq' hu1.1 hu1.2) (sq_le_sq' hu2.1 hu2.2)
          have h2 : 0.4 * hypot v.1 v.2 ≤ 0.4 * p.max_speed := by nlinarith [hv]
          linarith
      _ ≤ 0.4 * p.max_speed + 0.3 := by
          have : hypot (0.2 : ℝ) 0.2 ≤ 0.3 := by
            rw [hypot]
            rw [Real.sqrt_le_left (by norm_num)]
            norm_num
          linarith
      _ ≤ p.max_speed := by linarith
  · exact hv

theorem pyInt_ofInt (n : ℤ) : pyInt ((n : ℤ) : ℝ) = n := by
  rw [pyInt]
  split_ifs with h
  · exact Int.floor_intCast n
  · exact Int.ceil_intCast n

/-- Witness for C3 at a concrete input: the all-default pedestrian
(max_speed 3.0) with the all-zero generator. -/
theorem c3_speed_invariant_witness :
    Rng.WF rngZero ∧ (1 / 2 : ℝ) ≤ pedW.max_speed ∧
    hypot (Ped.update 800 600 pedW [] [] rngZero).1.vx
      (Ped.update 800 600 pedW [] [] rngZero).1.vy ≤ pedW.max_speed := by
  have hwf : Rng.WF rngZero := fun n => by norm_num [rngZero]
  exact ⟨hwf, by norm_num [pedW],
    c3_speed_invariant 800 600 pedW [] [] rngZero hwf (by norm_num [pedW])⟩

/-- Counterexample to C3 as stated over all pedestrians: a pedestrian
with `max_speed = 0.1`, already at its goal with zero velocity, boxed
in by a canvas-sized obstacle, bounces: both velocity components become
`0 · (-0.4) + 0.1 = 0.1`, so the resulting speed `√0.02 ≈ 0.1414`
exceeds `max_speed` by far more than floating-point tolerance. -/
theorem c3_speed_invariant_cex :
    (Ped.update 800 600 pedStuck [] [bigRect] rng34).1.vx = 0.1 ∧
    (Ped.update 800 600 pedStuck [] [bigRect] rng34).1.vy = 0.1 ∧
    (Ped.update 800 600 pedStuck [] [bigRect] rng34).1.max_speed = 0.1 ∧
    ¬ hypot (Ped.update 800 600 pedStuck [] [bigRect] rng34).1.vx
        (Ped.update 800 600 pedStuck [] [bigRect] rng34).1.vy ≤
      (Ped.update 800 600 pedStuck [] [bigRect] rng34).1.max_speed := by
  have hsd : selfDrivingForce pedStuck = (0, 0) := by
    rw [selfDrivingForce]
    norm_num [pedStuck, hypot, Real.sqrt_zero]
  have hpr : pedRepulsion 600 pedStuck [] = (0, 0) := rfl
  have hwr : wallRepulsion 800 pedStuck = (0, 0) := by
    rw [wallRepulsion]
    norm_num [pedStuck]
  have hcv : clampedVelocity 800 600 pedStuck [] = (0, 0) := by
    rw [clampedVelocity, hsd, hpr, hwr]
    norm_num [pedStuck, hypot, Real.sqrt_zero]
  have hwc : ∀ x y : ℝ, x = 100 → y = 100 →
      wouldCollide pedStuck x y [bigRect] = true := by
    intro x y hx hy
    subst hx; subst hy
    rw [wouldCollide]
    have h90 : (100 : ℝ) - ((pedStuck.radius : ℤ) : ℝ) = ((90 : ℤ) : ℝ) := by
      norm_num [pedStuck]
    simp only [h90, pyInt_ofInt]
    norm_num [pedStuck, bigRect, Rect.colliderect, List.any]
  have hu1 : (((rngUniform (-0.2) 0.2 rng34).1 : ℚ) : ℝ) = 0.1 := by
    rw [rngUniform]
    norm_num [Rng.next, rng34]
  have hu2 : (((rngUniform (-0.2) 0.2 (rngUniform (-0.2) 0.2 rng34).2).1 : ℚ) : ℝ) = 0.1 := by
    rw [rngUniform, rngUniform]
    norm_num [Rng.next, rng34]
  have key : (Ped.update 800 600 pedStuck [] [bigRect] rng34).1.vx = 0.1 ∧
      (Ped.update 800 600 pedStuck [] [bigRect] rng34).1.vy = 0.1 := by
    rw [Ped.update, hcv]
    have g1 : wouldCollide pedStuck (pedStuck.x + ((0 : ℝ), (0 : ℝ)).1)
        (pedStuck.y + ((0 : ℝ), (0 : ℝ)).2) [bigRect] = true :=
      hwc _ _ (by norm_num [pedStuck]) (by norm_num [pedStuck])
    have g2 : wouldCollide pedStuck (pedStuck.x + ((0 : ℝ), (0 : ℝ)).1)
        pedStuck.y [bigRect] = true :=
      hwc _ _ (by norm_num [pedStuck]) (by norm_num [pedStuck])
    have g3 : wouldCollide pedStuck pedStuck.x
        (pedStuck.y + ((0 : ℝ), (0 : ℝ)).2) [bigRect] = true :=
      hwc _ _ (by norm_num [pedStuck]) (by norm_num [pedStuck])
    simp only [g1, g2, g3, List.isEmpty, Bool.not_false, Bool.not_true, Bool.true_and,
      Bool.and_true, Bool.false_and, Bool.and_false, if_true, if_false]
    rw [hu1, hu2]
    norm_num
  refine ⟨key.1, key.2, rfl, ?_⟩
  rw [key.1, key.2]
  have hms : (Ped.update 800 600 pedStuck [] [bigRect] rng34).1.max_speed = 0.1 := rfl
  rw [hms]
  intro hle
  rw [hypot, Real.sqrt_le_left (by norm_num : (0 : ℝ) ≤ 0.1)] at hle
  norm_num at hle

/-! ## Scenario-builder lemmas -/

theorem rngIntegers_mem (lo hi : ℤ) (r : Rng) (h : lo < hi) :
    lo ≤ (rngIntegers lo hi r).1 ∧ (rngIntegers lo hi r).1 < hi := by
  simp only [rngIntegers, Rng.next]
  have hne : hi - lo ≠ 0 := by omega
  have h1 := Int.emod_nonneg (((r.stream r.idx).1 : ℕ) : ℤ) hne
  have h2 := Int.emod_lt_of_pos (((r.stream r.idx).1 : ℕ) : ℤ) (show 0 < hi - lo by omega)
  omega

/-! ## C6: build_scenario with randomize_world = false -/

/-- C6: with `randomize_world = false`, `build_scenario` returns
exactly the template's base rectangles in order, each clamped to
world-safe bounds (width and height at least 20, fully inside the
canvas — for any canvas at least 40 × 40 so the clamp is coherent),
adds no extra obstacle, passes the spawn/goal regions through
unmodified, and consumes no randomness. -/
theorem c6_static_build (W H : ℤ) (t : ScenarioTemplate) (rng : Rng)
    (hW : 40 ≤ W) (hH : 40 ≤ H) :
    (buildScenario W H t rng false).1.obstacles =
      t.obstacles.map (fun r => rectToSafeBounds W H r.1 r.2.1 r.2.2.1 r.2.2.2) ∧
    (∀ r ∈ (buildScenario W H t rng false).1.obstacles,
      20 ≤ r.w ∧ 20 ≤ r.h ∧ 0 ≤ r.x ∧ r.x + r.w ≤ W ∧ 0 ≤ r.y ∧ r.y + r.h ≤ H) ∧
    (buildScenario W H t rng false).1.pedestrian_spawn_regions =
      t.pedestrian_spawn_regions.map (fun r => ⟨r.1, r.2.1, r.2.2.1, r.2.2.2⟩) ∧
    (buildScenario W H t rng false).1.pedestrian_goal_regions =
      t.pedestrian_goal_regions.map (fun r => ⟨r.1, r.2.1, r.2.2.1, r.2.2.2⟩) ∧
    (buildScenario W H t rng false).2 = rng := by
  refine ⟨rfl, ?_, rfl, rfl, rfl⟩
  intro r hr
  have hobs : (buildScenario W H t rng false).1.obstacles =
      t.obstacles.map (fun q => rectToSafeBounds W H q.1 q.2.1 q.2.2.1 q.2.2.2) := rfl
  rw [hobs] at hr
  obtain ⟨q, -, rfl⟩ := List.mem_map.1 hr
  simp only [rectToSafeBounds]
  refine ⟨?_, ?_, ?_, ?_, ?_, ?_⟩ <;> omega

/-- Witness for C6 at a concrete input: the template `tmplOk` in an
800 × 600 world with the all-zero generator. -/
theorem c6_static_build_witness :
    ((40 : ℤ) ≤ 800 ∧ (40 : ℤ) ≤ 600) ∧
    ((buildScenario 800 600 tmplOk rngZero false).1.obstacles =
      tmplOk.obstacles.map (fun r => rectToSafeBounds 800 600 r.1 r.2.1 r.2.2.1 r.2.2.2) ∧
    (∀ r ∈ (buildScenario 800 600 tmplOk rngZero false).1.obstacles,
      20 ≤ r.w ∧ 20 ≤ r.h ∧ 0 ≤ r.x ∧ r.x + r.w ≤ 800 ∧ 0 ≤ r.y ∧ r.y + r.h ≤ 600) ∧
    (buildScenario 800 600 tmplOk rngZero false).1.pedestrian_spawn_regions =
      tmplOk.pedestrian_spawn_regions.map (fun r => ⟨r.1, r.2.1, r.2.2.1, r.2.2.2⟩) ∧
    (buildScenario 800 600 tmplOk rngZero false).1.pedestrian_goal_regions =
      tmplOk.pedestrian_goal_regions.map (fun r => ⟨r.1, r.2.1, r.2.2.1, r.2.2.2⟩) ∧
    (buildScenario 800 600 tmplOk rngZero false).2 = rngZero) :=
  ⟨⟨by norm_num, by norm_num⟩,
   c6_static_build 800 600 tmplOk rngZero (by norm_num) (by norm_num)⟩

/-! ## C8: extra obstacles are budgeted and silently skippable -/

/-- Each outer-loop iteration appends at most one extra obstacle, so
`placeExtras` grows the list by at most the requested count. -/
theorem placeExtras_length (W H : ℤ) (t : ScenarioTemplate) :
    ∀ (k : ℕ) (out : List Rect) (rng : Rng),
      ((placeExtras W H t k out rng).1).length ≤ out.length + k := by
  intro k
  induction k with
  | zero => intro out rng; simp [placeExtras]
  | succ k ih =>
    intro out rng
    rw [placeExtras]
    rcases htp : tryPlaceExtra W H t out 30 rng with ⟨o, rngx⟩
    cases o with
    | some rect =>
      have := ih (out ++ [rect]) rngx
      simp only [List.length_append, List.length_cons, List.length_nil] at this
      simpa using Nat.le_trans this (by omega)
    | none =>
      have := ih out rngx
      simpa using Nat.le_trans this (by omega)

/-- C8: `_sample_extra_obstacles` is total (an unplaceable candidate is
skipped after its 30 attempts, never raised on): the output never
gains more rectangles than the sampled count, and — whenever the
configured range `[extra_min, extra_max]` is well-formed and
non-negative — the sampled count is at most `extra_obstacle_max`. -/
theorem c8_extra_obstacle_budget (W H : ℤ) (t : ScenarioTemplate)
    (obstacles : List Rect) (rng : Rng)
    (h0 : 0 ≤ t.extra_obstacle_range.1)
    (h1 : t.extra_obstacle_range.1 ≤ t.extra_obstacle_range.2) :
    ((sampleExtraObstacles W H t obstacles rng).1).length ≤
      obstacles.length + ((extraCount t rng).1).toNat ∧
    (extraCount t rng).1 ≤ t.extra_obstacle_range.2 := by
  have hmem := rngIntegers_mem t.extra_obstacle_range.1
    (t.extra_obstacle_range.2 + 1) rng (by omega)
  have hec : (extraCount t rng).1 =
      (rngIntegers t.extra_obstacle_range.1 (t.extra_obstacle_range.2 + 1) rng).1 := rfl
  constructor
  · rw [sampleExtraObstacles]
    split_ifs with h
    · simp
    · exact placeExtras_length W H t ((extraCount t rng).1).toNat obstacles
        ((extraCount t rng).2)
  · omega

/-- Witness for C8 at a concrete input: `tmplOk` (extra range [0, 0])
over one existing obstacle. -/
theorem c8_extra_obstacle_budget_witness :
    ((0 : ℤ) ≤ tmplOk.extra_obstacle_range.1 ∧
      tmplOk.extra_obstacle_range.1 ≤ tmplOk.extra_obstacle_range.2) ∧
    ((sampleExtraObstacles 800 600 tmplOk [bigRect] rngZero).1.length ≤
      [bigRect].length + ((extraCount tmplOk rngZero).1).toNat ∧
     (extraCount tmplOk rngZero).1 ≤ tmplOk.extra_obstacle_range.2) :=
  ⟨⟨by norm_num [tmplOk], by norm_num [tmplOk]⟩,
   c8_extra_obstacle_budget 800 600 tmplOk [bigRect] rngZero
     (by norm_num [tmplOk]) (by norm_num [tmplOk])⟩

/-! ## C2: placement checks of randomized worlds -/

/-- A candidate accepted by the 30-attempt loop passed both robot-disk
checks. -/
theorem tryPlaceExtra_checks (W H : ℤ) (t : ScenarioTemplate) :
    ∀ (fuel : ℕ) (out : List Rect) (rng : Rng) (r : Rect) (rng' : Rng),
      tryPlaceExtra W H t out fuel rng = (some r, rng') →
      circleHitsRect t.robot_start 45 r = false ∧
      circleHitsRect t.robot_goal 45 r = false := by
  intro fuel
  induction fuel with
  | zero =>
    intro out rng r rng' h
    exact absurd h (by simp [tryPlaceExtra])
  | succ fuel ih =>
    intro out rng r rng' h
    simp only [tryPlaceExtra] at h
    split_ifs at h with hc1 hc2 hc3
    · exact ih _ _ _ _ h
    · exact ih _ _ _ _ h
    · exact ih _ _ _ _ h
    · simp only [Prod.mk.injEq, Option.some.injEq] at h
      rw [← h.1]
      exact ⟨Bool.eq_false_iff.mpr hc1, Bool.eq_false_iff.mpr hc2⟩

/-- The outer loop only appends rectangles that passed the robot-disk
checks. -/
theorem placeExtras_extras (W H : ℤ) (t : ScenarioTemplate) :
    ∀ (k : ℕ) (out : List Rect) (rng : Rng),
      ∃ extras, (placeExtras W H t k out rng).1 = out ++ extras ∧
        ∀ r ∈ extras, circleHitsRect t.robot_start 45 r = false ∧
          circleHitsRect t.robot_goal 45 r = false := by
  intro k
  induction k with
  | zero =>
    intro out rng
    exact ⟨[], by simp [placeExtras], by simp⟩
  | succ k ih =>
    intro out rng
    rw [placeExtras]
    rcases htp : tryPlaceExtra W H t out 30 rng with ⟨o, rngx⟩
    cases o with
    | some rect =>
      obtain ⟨extras, heq, hall⟩ := ih (out ++ [rect]) rngx
      refine ⟨rect :: extras, by simpa using heq, ?_⟩
      intro r hr
      rcases List.mem_cons.1 hr with rfl | hr'
      · exact tryPlaceExtra_checks W H t 30 out rng r rngx htp
      · exact hall r hr'
    | none => exact ih out rngx

/-- Every rectangle `_sample_extra_obstacles` adds beyond its input
passed both robot-disk checks. -/
theorem sampleExtraObstacles_extras (W H : ℤ) (t : ScenarioTemplate)
    (obstacles : List Rect) (rng : Rng) :
    ∃ extras, (sampleExtraObstacles W H t obstacles rng).1 = obstacles ++ extras ∧
      ∀ r ∈ extras, circleHitsRect t.robot_start 45 r = false ∧
        circleHitsRect t.robot_goal 45 r = false := by
  rw [sampleExtraObstacles]
  split_ifs with h
  · exact ⟨[], by simp, by simp⟩
  · exact placeExtras_extras W H t ((extraCount t rng).1).toNat obstacles
      ((extraCount t rng).2)

/-- C2 (amended): in a `randomize_world = true` build, every obstacle
beyond the jittered base obstacles — i.e. every sampled extra — is
strictly outside both 45-unit robot disks; the jittered base obstacles
themselves are never checked against those disks. -/
theorem c2_extras_avoid_disks (W H : ℤ) (t : ScenarioTemplate) (rng : Rng) :
    ∃ extras,
      (buildScenario W H t rng true).1.obstacles =
        (jitteredObstacles W H t t.obstacles rng).1 ++ extras ∧
      ∀ r ∈ extras, circleHitsRect t.robot_start 45 r = false ∧
        circleHitsRect t.robot_goal 45 r = false := by
  have hobs : (buildScenario W H t rng true).1.obstacles =
      (sampleExtraObstacles W H t (jitteredObstacles W H t t.obstacles rng).1
        (jitteredObstacles W H t t.obstacles rng).2).1 := rfl
  rw [hobs]
  exact sampleExtraObstacles_extras W H t _ _

/-- Counterexample to C2 as stated: `tmplBad`'s base obstacle contains
the robot start; with zero jitter the `randomize_world = true` build
returns it unchanged, overlapping the start disk — the base-obstacle
path performs no disk check. -/
theorem c2_base_obstacle_cex :
    (buildScenario 800 600 tmplBad rngZero true).1.obstacles =
      [⟨80, 80, 40, 40⟩] ∧
    circleHitsRect tmplBad.robot_start 45 ⟨80, 80, 40, 40⟩ = true := by
  constructor
  · rfl
  · rw [show tmplBad.robot_start = ((100 : ℚ), (100 : ℚ)) from rfl, circleHitsRect]
    norm_num [max_def, min_def]

/-! ## C9: generate_pedestrians -/

/-- The sampled point of `random_point_in_region` stays in the (closed)
region provided the region is at least 12 wide and 12 tall: the value
is `left + 12 + t·(w − 24)` with `t ∈ [0, 1)`, which numpy also
produces when the margins cross (`w < 24`, reversed bounds). -/
theorem randomPointInRegion_mem (region : Rect) (rng : Rng) (hwf : rng.WF)
    (hw : 12 ≤ region.w) (hh : 12 ≤ region.h) :
    (region.x : ℚ) ≤ ((randomPointInRegion region rng).1).1 ∧
    ((randomPointInRegion region rng).1).1 ≤ ((region.x + region.w : ℤ) : ℚ) ∧
    (region.y : ℚ) ≤ ((randomPointInRegion region rng).1).2 ∧
    ((randomPointInRegion region rng).1).2 ≤ ((region.y + region.h : ℤ) : ℚ) := by
  have h1 := hwf rng.idx
  have h2 := hwf (rng.idx + 1)
  have hwq : (12 : ℚ) ≤ (region.w : ℚ) := by exact_mod_cast hw
  have hhq : (12 : ℚ) ≤ (region.h : ℚ) := by exact_mod_cast hh
  simp only [randomPointInRegion, rngUniform, Rng.next]
  refine ⟨?_, ?_, ?_, ?_⟩ <;> push_cast
  · rcases le_total (24 : ℚ) (region.w : ℚ) with hc | hc <;>
      nlinarith [h1.1, h1.2]
  · rcases le_total (24 : ℚ) (region.w : ℚ) with hc | hc <;>
      nlinarith [h1.1, h1.2]
  · rcases le_total (24 : ℚ) (region.h : ℚ) with hc | hc <;>
      nlinarith [h2.1, h2.2]
  · rcases le_total (24 : ℚ) (region.h : ℚ) with hc | hc <;>
      nlinarith [h2.1, h2.2]

/-- The spawn point of a sampled route lies inside one of the
scenario's spawn regions, provided these are non-empty and at least
12 × 12. -/
theorem randomPedestrianRoute_spawn_mem (s : Scenario) (rng : Rng) (hwf : rng.WF)
    (hs : s.pedestrian_spawn_regions ≠ [])
    (hall : ∀ r ∈ s.pedestrian_spawn_regions, 12 ≤ r.w ∧ 12 ≤ r.h) :
    ∃ reg ∈ s.pedestrian_spawn_regions,
      (reg.x : ℚ) ≤ ((randomPedestrianRoute s rng).1).1.1 ∧
      ((randomPedestrianRoute s rng).1).1.1 ≤ ((reg.x + reg.w : ℤ) : ℚ) ∧
      (reg.y : ℚ) ≤ ((randomPedestrianRoute s rng).1).1.2 ∧
      ((randomPedestrianRoute s rng).1).1.2 ≤ ((reg.y + reg.h : ℤ) : ℚ) := by
  have hlen : 0 < (s.pedestrian_spawn_regions.length : ℤ) := by
    have := List.length_pos.2 hs
    exact_mod_cast this
  have hsi := rngIntegers_mem 0 s.pedestrian_spawn_regions.length rng hlen
  set si := (rngIntegers 0 s.pedestrian_spawn_regions.length rng).1 with hsidef
  set rng1 := (rngIntegers 0 s.pedestrian_spawn_regions.length rng).2 with hrng1
  set rng2 := (rngIntegers 0 s.pedestrian_goal_regions.length rng1).2 with hrng2
  have hlt : si.toNat < s.pedestrian_spawn_regions.length := by omega
  set reg := s.pedestrian_spawn_regions.getD si.toNat ⟨0, 0, 0, 0⟩ with hreg
  have hregmem : reg ∈ s.pedestrian_spawn_regions := by
    rw [hreg, List.getD_eq_getElem _ _ hlt]
    exact List.getElem_mem hlt
  have hwf2 : Rng.WF rng2 := fun n => hwf n
  have hbounds := randomPointInRegion_mem reg rng2 hwf2 (hall reg hregmem).1
    (hall reg hregmem).2
  have hfst : ((randomPedestrianRoute s rng).1).1 = (randomPointInRegion reg rng2).1 := rfl
  rw [hfst]
  exact ⟨reg, hregmem, hbounds⟩

/-- C9 (amended): on a scenario with non-empty spawn and goal region
lists whose spawn regions are all at least 12 × 12 (so the 12-unit
sampling margin cannot escape a region), `generate_pedestrians`
returns exactly `K` pedestrians, each with zero initial velocity and a
position inside one of the spawn regions. -/
theorem c9_generate_pedestrians (s : Scenario) (rng : Rng) (K : ℕ) (hwf : rng.WF)
    (hs : s.pedestrian_spawn_regions ≠ []) (hg : s.pedestrian_goal_regions ≠ [])
    (hall : ∀ r ∈ s.pedestrian_spawn_regions, 12 ≤ r.w ∧ 12 ≤ r.h) :
    ((generatePedestrians s rng K).1).length = K ∧
    ∀ p ∈ (generatePedestrians s rng K).1, p.vx = 0 ∧ p.vy = 0 ∧
      ∃ reg ∈ s.pedestrian_spawn_regions, inRect reg p.x p.y := by
  induction K generalizing rng with
  | zero => exact ⟨rfl, by intro p hp; exact absurd hp (by simp [generatePedestrians])⟩
  | succ K ih =>
    have hwf1 : Rng.WF (randomPedestrianRoute s rng).2 := fun n => hwf n
    obtain ⟨ihlen, ihmem⟩ := ih (randomPedestrianRoute s rng).2 hwf1
    constructor
    · simpa [generatePedestrians] using ihlen
    · intro p hp
      rw [generatePedestrians] at hp
      simp only at hp
      rcases List.mem_cons.1 hp with rfl | hp'
      · refine ⟨by norm_num, by norm_num, ?_⟩
        obtain ⟨reg, hmem, hb1, hb2, hb3, hb4⟩ :=
          randomPedestrianRoute_spawn_mem s rng hwf hs hall
        refine ⟨reg, hmem, ?_, ?_, ?_, ?_⟩ <;>
          simp only [inRect] <;> exact_mod_cast (by assumption)
      · exact ihmem p hp'

/-- Witness for C9 at a concrete input: `scenRun` (one 60 × 60 spawn
region), the all-zero generator, two pedestrians. -/
theorem c9_generate_pedestrians_witness :
    (Rng.WF rngZero ∧ scenRun.pedestrian_spawn_regions ≠ [] ∧
      scenRun.pedestrian_goal_regions ≠ [] ∧
      (∀ r ∈ scenRun.pedestrian_spawn_regions, 12 ≤ r.w ∧ 12 ≤ r.h)) ∧
    (((generatePedestrians scenRun rngZero 2).1).length = 2 ∧
     ∀ p ∈ (generatePedestrians scenRun rngZero 2).1, p.vx = 0 ∧ p.vy = 0 ∧
       ∃ reg ∈ scenRun.pedestrian_spawn_regions, inRect reg p.x p.y) := by
  have hwf : Rng.WF rngZero := fun n => by norm_num [rngZero]
  have hs : scenRun.pedestrian_spawn_regions ≠ [] := by simp [scenRun]
  have hg : scenRun.pedestrian_goal_regions ≠ [] := by simp [scenRun]
  have hall : ∀ r ∈ scenRun.pedestrian_spawn_regions, 12 ≤ r.w ∧ 12 ≤ r.h := by
    intro r hr
    simp only [scenRun] at hr
    rcases List.mem_singleton.1 hr with rfl
    norm_num
  exact ⟨⟨hwf, hs, hg, hall⟩, c9_generate_pedestrians scenRun rngZero 2 hwf hs hg hall⟩

/-- Counterexample to C9 as stated: on `scenSmall`, whose only spawn
region is the 5 × 5 square at the origin, the sampled pedestrian lands
at x = 12 — outside the region — because the 12-unit margin is wider
than the region and numpy's `uniform` silently accepts reversed
bounds. -/
theorem c9_margin_cex :
    ((generatePedestrians scenSmall rngZero 1).1).length = 1 ∧
    scenSmall.pedestrian_spawn_regions = [⟨0, 0, 5, 5⟩] ∧
    ¬ inRect ⟨0, 0, 5, 5⟩ ((generatePedestrians scenSmall rngZero 1).1.getD 0 default).x
        ((generatePedestrians scenSmall rngZero 1).1.getD 0 default).y := by
  have hroute : ((randomPedestrianRoute scenSmall rngZero).1).1.1 = 12 := by
    simp only [randomPedestrianRoute, randomPointInRegion, rngIntegers, rngUniform,
      Rng.next, scenSmall, rngZero]
    norm_num
  have hx : ((generatePedestrians scenSmall rngZero 1).1.getD 0 default).x =
      ((12 : ℚ) : ℝ) := by
    show ((((randomPedestrianRoute scenSmall rngZero).1).1.1 : ℚ) : ℝ) = ((12 : ℚ) : ℝ)
    rw [hroute]
  refine ⟨rfl, rfl, ?_⟩
  intro hin
  have h2 := hin.2.1
  rw [hx] at h2
  norm_num at h2

/-! ## C5: determinism of seeded runs -/

/-- Every strategy except RANDOM ignores the global `random` state and
passes it through unchanged. -/
theorem behavior_pyr (mode : Mode) (hm : mode ≠ Mode.RANDOM) (robot : Robot)
    (g : ℝ × ℝ) (peds : List Ped) (keys : Keys) (p q : PyRandom) :
    (behavior mode robot g peds keys p).1 = (behavior mode robot g peds keys q).1 ∧
    (behavior mode robot g peds keys p).2 = p := by
  cases mode with
  | MANUAL => exact ⟨rfl, rfl⟩
  | NAIVE => exact ⟨rfl, rfl⟩
  | RANDOM => exact absurd rfl hm
  | POTENTIAL_FIELD => exact ⟨rfl, rfl⟩

/-- In a non-RANDOM mode, one simulation tick commutes with replacing
the global `random` state: nothing else reads or writes it. -/
theorem simStep_pyr (W H : ℤ) (cfg : SimConfig) (keys : Keys) (w : World)
    (p : PyRandom) (h : cfg.mode ≠ Mode.RANDOM) :
    simStep W H cfg keys { w with pyr := p } =
      { simStep W H cfg keys w with pyr := p } := by
  rcases w with ⟨scen, robot, peds, rng, pyr0⟩
  obtain ⟨hmv, hp⟩ := behavior_pyr cfg.mode h robot
    ((scen.robot_goal.1 : ℝ), (scen.robot_goal.2 : ℝ)) peds keys p pyr0
  simp only [simStep]
  rw [hmv, hp]
  split_ifs <;> rfl

/-- Running commutes with replacing the global `random` state in
non-RANDOM modes. -/
theorem runN_pyr (W H : ℤ) (cfg : SimConfig) (ks : ℕ → Keys)
    (h : cfg.mode ≠ Mode.RANDOM) :
    ∀ (n : ℕ) (w : World) (p : PyRandom),
      runN W H cfg ks n { w with pyr := p } = { runN W H cfg ks n w with pyr := p } := by
  intro n
  induction n with
  | zero => intro w p; rfl
  | succ n ih =>
    intro w p
    rw [runN, runN, ih, simStep_pyr _ _ _ _ _ _ h]

/-- The observable trajectory never depends on the global `random`
state in non-RANDOM modes. -/
theorem traceN_pyr (W H : ℤ) (cfg : SimConfig) (ks : ℕ → Keys) (n : ℕ)
    (w : World) (p : PyRandom) (h : cfg.mode ≠ Mode.RANDOM) :
    traceN W H cfg ks n { w with pyr := p } = traceN W H cfg ks n w := by
  rw [traceN, traceN]
  refine List.map_congr_left fun k _ => ?_
  rw [runN_pyr W H cfg ks h (k + 1) w p]
  rfl

/-- C5 (amended): for a fixed seed (hence equal numpy generator
state), fixed scenario, pedestrian count and key inputs, two runs in
any control mode other than RANDOM produce identical robot and
pedestrian trajectories for every tick count, even though the
process-global `random` state (modelled by the two arbitrary `PyRandom`
values) differs between independent runs.  In RANDOM mode this fails:
see the counterexample. -/
theorem c5_determinism (W H : ℤ) (cfg : SimConfig) (ks : ℕ → Keys) (n : ℕ)
    (w : World) (p1 p2 : PyRandom) (h : cfg.mode ≠ Mode.RANDOM) :
    traceN W H cfg ks n { w with pyr := p1 } =
      traceN W H cfg ks n { w with pyr := p2 } := by
  rw [traceN_pyr _ _ _ _ _ _ _ h]
  exact (traceN_pyr W H cfg ks n w p2 h).symm

/-- Witness for C5 at a concrete input: a NAIVE-mode 3-tick run. -/
theorem c5_determinism_witness :
    cfgNaive.mode ≠ Mode.RANDOM ∧
    traceN 800 600 cfgNaive ksNone 3 { worldRun with pyr := pyrStill } =
      traceN 800 600 cfgNaive ksNone 3 { worldRun with pyr := pyrRight } :=
  ⟨by decide,
   c5_determinism 800 600 cfgNaive ksNone 3 worldRun pyrStill pyrRight (by decide)⟩

/-- Counterexample to C5 as stated (all control modes): in RANDOM mode
the robot's move comes from the process-global `random` module, which
the seed never initializes, so two independent runs that agree on
seed, scenario, pedestrian count and keys still diverge: with one
global-random stream the robot stays at x = 80, with another it steps
to x = 83 after a single tick. -/
theorem c5_random_mode_cex :
    traceN 800 600 cfgRand ksNone 1 worldRun ≠
      traceN 800 600 cfgRand ksNone 1 { worldRun with pyr := pyrRight } := by
  have hs620 : Real.sqrt (384400 : ℝ) = 620 := by
    rw [show (384400 : ℝ) = 620 ^ 2 by norm_num]
    exact Real.sqrt_sq (by norm_num)
  have hs617 : Real.sqrt (380689 : ℝ) = 617 := by
    rw [show (380689 : ℝ) = 617 ^ 2 by norm_num]
    exact Real.sqrt_sq (by norm_num)
  have hA : traceN 800 600 cfgRand ksNone 1 worldRun =
      [(({ x := 80, y := 80 } : Robot), ([] : List Ped))] := by
    rw [traceN, show List.range 1 = [0] from rfl]
    norm_num [List.map_cons, runN, simStep, worldRun, scenRun, cfgRand, behavior,
      getRandomMove, pyChoice, pyrStill, lengthSq, updateAll, updateLoop,
      reassignReachedGoals, vecLength, hypot, hs620, GOAL_RADIUS, observe]
  have hB : traceN 800 600 cfgRand ksNone 1 { worldRun with pyr := pyrRight } =
      [(({ x := 83, y := 80 } : Robot), ([] : List Ped))] := by
    rw [show ({ worldRun with pyr := pyrRight } : World) =
      (⟨scenRun, { x := 80, y := 80 }, [], rngZero, pyrRight⟩ : World) from rfl]
    rw [traceN, show List.range 1 = [0] from rfl]
    norm_num [List.map_cons, runN, simStep, scenRun, cfgRand, behavior,
      getRandomMove, pyChoice, pyrRight, lengthSq, updateAll, updateLoop,
      reassignReachedGoals, vecLength, hypot, vecNormalize, Real.sqrt_one,
      Robot.moveWithObstacles, collidesAny, min_def, max_def,
      hs617, GOAL_RADIUS, observe]
  rw [hA, hB]
  intro hcontra
  norm_num [List.cons.injEq, Prod.mk.injEq, Robot.mk.injEq] at hcontra

end CrowdNav
